import Mathlib

/-!
# Verification of the SimpleAI pattern-learning and prediction engine

A shallow embedding, in Lean 4, of the core of the SimpleAI editor
extension: the autonomous learning system (`autonomousLearning.ts`), the
prediction classifier (`predictiveAssistant.ts`) and the pattern analyzer
(`patternAnalyzer.ts`).  JavaScript strings are modelled as Lean `String`
(the sources only ever handle ASCII program text), JavaScript numbers as
`ℚ` (every number the engine computes is rational: the sources only add,
multiply and divide small decimal constants), timestamps as `Nat`, and the
insertion-ordered `Map` of learned patterns as a `List` of records keyed
by their `id` field.  Decimal constants from the source are written as
fractions (`0.3` is `3/10`, and so on).  Fuel-indexed helpers (the fuel is
always the length of the scanned list, which bounds the number of steps)
keep the string scanners structurally recursive, hence computable by the
kernel.
-/

namespace SimpleAI

/-- JS whitespace (`\s`), restricted to the ASCII characters that can occur
in the sources' inputs. -/
def wsChar (c : Char) : Bool :=
  c == ' ' || c == '\t' || c == '\n' || c == '\r' || c == '\x0b' || c == '\x0c'

/-- JS word character (`\w`): `[A-Za-z0-9_]`. -/
def wordChar (c : Char) : Bool :=
  (('a' ≤ c && c ≤ 'z') || ('A' ≤ c && c ≤ 'Z') || ('0' ≤ c && c ≤ '9') || c == '_')

/-- A letter or underscore: the first character class of the identifier
regex `[a-zA-Z_]`. -/
def identStartChar (c : Char) : Bool :=
  (('a' ≤ c && c ≤ 'z') || ('A' ≤ c && c ≤ 'Z') || c == '_')

/-- `String.prototype.trim`. -/
def jsTrimList (l : List Char) : List Char :=
  ((l.dropWhile wsChar).reverse.dropWhile wsChar).reverse

def jsTrim (s : String) : String := ⟨jsTrimList s.data⟩

/-- `String.prototype.startsWith`. -/
def jsStartsWith (s pre : String) : Bool := pre.data.isPrefixOf s.data

/-- Helper for `includes`: does `sub` occur in the scanned list? -/
def includesAux (sub : List Char) : List Char → Bool
  | [] => sub.isEmpty
  | c :: rest => sub.isPrefixOf (c :: rest) || includesAux sub rest

/-- `String.prototype.includes`. -/
def jsIncludes (s sub : String) : Bool := includesAux sub.data s.data

/-- Maximal runs of non-whitespace characters, in order (`cur` accumulates
the current run, reversed). -/
def splitWsAux (cur : List Char) : List Char → List (List Char)
  | [] => if cur.isEmpty then [] else [cur.reverse]
  | c :: rest =>
    if wsChar c then
      if cur.isEmpty then splitWsAux [] rest else cur.reverse :: splitWsAux [] rest
    else splitWsAux (c :: cur) rest

def splitWsTokens (l : List Char) : List (List Char) := splitWsAux [] l

/-- `String.prototype.split(/\s+/)`: the maximal non-whitespace runs, plus
an empty first (last) element when the string starts (ends) with
whitespace, and `[""]` for the empty string — exactly JS's behaviour. -/
def jsSplitWs (l : List Char) : List (List Char) :=
  match l with
  | [] => [[]]
  | c :: _ =>
    (if wsChar c then [[]] else []) ++ splitWsTokens l ++
      (if wsChar (l.getLastD ' ') then [[]] else [])

/-- `String.prototype.split(sep)` for a one-character separator (keeps
empty segments, as JS does). -/
def splitOnCharAux (sep : Char) (cur : List Char) : List Char → List (List Char)
  | [] => [cur.reverse]
  | c :: rest =>
    if c == sep then cur.reverse :: splitOnCharAux sep [] rest
    else splitOnCharAux sep (c :: cur) rest

def splitOnChar (sep : Char) (l : List Char) : List (List Char) := splitOnCharAux sep [] l

/-- One step of `str.match(/(alt1|alt2|…)/g)` counting: at each position try
the alternatives in order; on a match advance past it, otherwise advance one
character.  `fuel` is decremented once per step; starting it at the list's
length makes it sufficient, since every step consumes at least one
character. -/
def countAltAux (alts : List (List Char)) : Nat → List Char → Nat
  | 0, _ => 0
  | _, [] => 0
  | fuel + 1, c :: rest =>
    match alts.find? (fun a => a.isPrefixOf (c :: rest)) with
    | some a => 1 + countAltAux alts fuel (rest.drop (a.length - 1))
    | none => countAltAux alts fuel rest

/-- Number of (non-overlapping, leftmost) matches of the alternation of
`alts` in `l`, as `String.prototype.match` with the `g` flag counts them. -/
def countAltMatches (alts : List (List Char)) (l : List Char) : Nat :=
  countAltAux alts l.length l

/-- Is the character after a candidate keyword occurrence a word boundary
(end of input or a non-word character)? -/
def boundaryAfter (k : List Char) (l : List Char) : Bool :=
  match l.drop k.length with
  | [] => true
  | d :: _ => !wordChar d

/-- Scanner for `str.match(/\b(kw1|kw2|…)\b/g)`: `prev` is the character
just before the current position (`none` at the start of input); a keyword
matches only between word boundaries.  Returns the matched keywords in
order. -/
def kwMatchesAux (kws : List (List Char)) : Nat → Option Char → List Char → List (List Char)
  | 0, _, _ => []
  | _, _, [] => []
  | fuel + 1, prev, c :: rest =>
    let boundaryBefore : Bool := match prev with | none => true | some p => !wordChar p
    match (if boundaryBefore then
        kws.find? (fun k => k.isPrefixOf (c :: rest) && boundaryAfter k (c :: rest))
      else none) with
    | some k => k :: kwMatchesAux kws fuel (some (k.getLastD c)) (rest.drop (k.length - 1))
    | none => kwMatchesAux kws fuel (some c) rest

def kwMatches (kws : List (List Char)) (l : List Char) : List (List Char) :=
  kwMatchesAux kws l.length none l

/-- Maximal runs of word characters, in order. -/
def wordRunsAux (cur : List Char) : List Char → List (List Char)
  | [] => if cur.isEmpty then [] else [cur.reverse]
  | c :: rest =>
    if wordChar c then wordRunsAux (c :: cur) rest
    else if cur.isEmpty then wordRunsAux [] rest
    else cur.reverse :: wordRunsAux [] rest

/-- The matches of `/\b[a-zA-Z_][a-zA-Z0-9_]*\b/g`: exactly the maximal
word-character runs whose first character is a letter or underscore (a run
starting with a digit matches nowhere, since `\b` fails inside the run). -/
def identTokens (l : List Char) : List (List Char) :=
  (wordRunsAux [] l).filter (fun r => identStartChar (r.headD ' '))

/-- Insertion-order deduplication, as `[...new Set(xs)]` produces it (the
first occurrence survives).  Fuel-indexed to stay structural; the filter
only shortens the list, so `xs.length` steps suffice. -/
def uniqueFirstAux : Nat → List String → List String
  | 0, _ => []
  | _, [] => []
  | fuel + 1, x :: xs => x :: uniqueFirstAux fuel (xs.filter (fun y => y != x))

def uniqueFirst (l : List String) : List String := uniqueFirstAux l.length l

/-- `ToInt32` for integers in the exact range of a JS number: wrap into
`[-2^31, 2^31)`. -/
def toInt32 (n : Int) : Int := (n + 2 ^ 31) % 2 ^ 32 - 2 ^ 31

/-- JS `Math.round` (half away from zero is irrelevant here: all inputs are
non-negative, and JS rounds half up). -/
def jsRound (x : ℚ) : Int := ⌊x + 1 / 2⌋

/-- The digit characters of `Number.prototype.toString(36)`: `0-9` then
`a-z`. -/
def base36Digit (d : Nat) : Char :=
  if d < 10 then Char.ofNat (48 + d) else Char.ofNat (87 + d)

def toBase36Aux : Nat → Nat → List Char
  | 0, _ => []
  | fuel + 1, n =>
    if n < 36 then [base36Digit n]
    else toBase36Aux fuel (n / 36) ++ [base36Digit (n % 36)]

/-- `n.toString(36)` for a non-negative integer. -/
def toBase36 (n : Nat) : String := ⟨toBase36Aux (n + 1) n⟩

/-- `str.replace(/\s+/g, ' ')`: every maximal whitespace run becomes one
space. -/
def replaceWsRunsAux : Nat → List Char → List Char
  | 0, _ => []
  | _, [] => []
  | fuel + 1, c :: rest =>
    if wsChar c then ' ' :: replaceWsRunsAux fuel (rest.dropWhile wsChar)
    else c :: replaceWsRunsAux fuel rest

def replaceWsRuns (l : List Char) : List Char := replaceWsRunsAux l.length l

/-! ## The autonomous learning system (`autonomousLearning.ts`)

`LearnedPattern` and `CodeFragment` are direct translations of the two
interfaces at the top of the file; the store (a JS `Map` keyed by
`pattern.id`, iterated in insertion order) is a `List LearnedPattern`. -/

inductive FragType where
  | funcao | classe | variavel | bloco | importacao | loop | condicao
deriving DecidableEq

structure LearnedPattern where
  id : String
  codigo : String
  contexto : String
  frequencia : Nat
  ultimoUso : Nat
  gatilhos : List String
  tipoArquivo : String
  confianca : ℚ
  variacoes : List String
deriving DecidableEq

structure CodeFragment where
  content : String
  type : FragType
  context : String
  lineCount : Nat
  complexity : ℚ
deriving DecidableEq

def MIN_PATTERN_LENGTH : Nat := 12

def MAX_PATTERNS : Nat := 1000

/-- `calculateComplexity`: 1, plus the control-structure matches of
`/(if|else|for|while|switch|try|catch)/g`, plus the matches of
`/function|=>/g`, plus half the count of `/[{[]/g`. -/
def calculateComplexity (code : String) : ℚ :=
  let complexity : ℚ := 1
  let complexity := complexity +
    (countAltMatches
      ["if".data, "else".data, "for".data, "while".data, "switch".data,
        "try".data, "catch".data] code.data : ℕ)
  let complexity := complexity + (countAltMatches ["function".data, "=>".data] code.data : ℕ)
  let complexity := complexity + (code.data.countP (fun c => c == '\x7b' || c == '[') : ℕ) * (1 / 2)
  complexity

/-- `hasGoodStructure`: brace balance over the lines is zero (the
`indentationConsistent` flag in the source is never set to `false`). -/
def hasGoodStructure (code : String) : Bool :=
  let lines := splitOnChar '\n' code.data
  let braceBalance := lines.foldl
    (fun (b : Int) line =>
      b + (line.countP (fun c => c == '\x7b') : Int) - (line.countP (fun c => c == '\x7d') : Int))
    0
  braceBalance == 0

/-- `calculatePatternConfidence`: base 0.5, plus `min 0.3 (complexity*0.1)`,
plus a per-kind bonus (function 0.2, class 0.25, import 0.15), plus 0.1 for
good structure, clamped to at most 1. -/
def calculatePatternConfidence (fragment : CodeFragment) : ℚ :=
  let confidence : ℚ := 1 / 2
  let confidence := confidence + min (3 / 10) (fragment.complexity * (1 / 10))
  let confidence := confidence +
    (match fragment.type with
      | .funcao => 1 / 5
      | .classe => 1 / 4
      | .importacao => 3 / 20
      | _ => 0)
  let confidence := if hasGoodStructure fragment.content then confidence + 1 / 10 else confidence
  min 1 confidence

/-- `extractTriggers`: keyword matches of the code, up to five identifier
tokens, up to three context words longer than three characters, with
duplicates removed in first-occurrence order. -/
def extractTriggers (code context : String) : List String :=
  let keywords := (kwMatches
    ["function".data, "class".data, "const".data, "let".data, "var".data,
      "if".data, "for".data, "while".data, "return".data, "import".data,
      "export".data] code.data).map (fun l => (⟨l⟩ : String))
  let names := (identTokens code.data).map (fun l => (⟨l⟩ : String))
  let contextWords := ((jsSplitWs context.data).map (fun l => (⟨l⟩ : String))).filter
    (fun word => 3 < word.length)
  uniqueFirst (keywords ++ names.take 5 ++ contextWords.take 3)

/-- `simpleHash`: the JS loop `hash = ((hash << 5) - hash) + charCode;
hash = hash & hash` (the `&` coerces to a 32-bit integer), then
`Math.abs(hash).toString(36)`. -/
def simpleHashStep (h : Int) (c : Char) : Int :=
  toInt32 (toInt32 (h * 32) - h + c.toNat)

def simpleHash (s : String) : String :=
  toBase36 (s.data.foldl simpleHashStep 0).natAbs

/-- `generatePatternId`: hash of the whitespace-normalized, trimmed
content, prefixed by `pattern_`. -/
def generatePatternId (code : String) : String :=
  "pattern_" ++ simpleHash ⟨jsTrimList (replaceWsRuns code.data)⟩

/-- `calculateCodeSimilarity`: Jaccard similarity of the whitespace-token
sets of the two strings. -/
def calculateCodeSimilarity (code1 code2 : String) : ℚ :=
  let set1 := uniqueFirst ((jsSplitWs code1.data).map (fun l => (⟨l⟩ : String)))
  let set2 := uniqueFirst ((jsSplitWs code2.data).map (fun l => (⟨l⟩ : String)))
  let intersection := set1.filter (fun x => set2.contains x)
  let union := uniqueFirst (set1 ++ set2)
  (intersection.length : ℚ) / (union.length : ℚ)

/-- `findSimilarPattern`: the first stored pattern whose code has Jaccard
similarity above 0.8 with `code`. -/
def findSimilarPattern (patterns : List LearnedPattern) (code : String) :
    Option LearnedPattern :=
  patterns.find? (fun pattern => decide ((4 / 5 : ℚ) < calculateCodeSimilarity code pattern.codigo))

/-- `isWorthLearning`: the worth-learning policy of the learning
controller. -/
def isWorthLearning (patterns : List LearnedPattern) (fragment : CodeFragment) : Bool :=
  if fragment.content.length < MIN_PATTERN_LENGTH then false
  else if 50 < fragment.lineCount then false
  else if fragment.complexity < 1 then false
  else
    match findSimilarPattern patterns fragment.content with
    | some similar => if (9 / 10 : ℚ) < similar.confianca then false else true
    | none => true

/-- `reasonNotWorth`: the diagnostic string logged for a rejected
fragment. -/
def reasonNotWorth (patterns : List LearnedPattern) (fragment : CodeFragment) : String :=
  if fragment.content.length < MIN_PATTERN_LENGTH then "curto"
  else if 50 < fragment.lineCount then "longo"
  else if fragment.complexity < 1 then "complexidade"
  else
    match findSimilarPattern patterns fragment.content with
    | some similar => if (9 / 10 : ℚ) < similar.confianca then "similar-existente" else "desconhecido"
    | none => "desconhecido"

/-- Lookup in the `Map` of learned patterns (every stored pattern's `id`
field is its key). -/
def findPattern (patterns : List LearnedPattern) (patternId : String) : Option LearnedPattern :=
  patterns.find? (fun p => p.id == patternId)

/-- The eviction score `frequencia * confianca`. -/
def patternScore (p : LearnedPattern) : ℚ := (p.frequencia : ℚ) * p.confianca

/-- `Math.floor(MAX_PATTERNS * 0.8)`. -/
def keepCount : Nat := (⌊(MAX_PATTERNS : ℚ) * (4 / 5)⌋).toNat

/-- `cleanupOldPatterns`: sort all patterns descending by
`frequencia * confianca` (JS `Array.prototype.sort` is stable) and keep the
top `keepCount`. -/
def cleanupOldPatterns (patterns : List LearnedPattern) : List LearnedPattern :=
  (patterns.mergeSort (fun a b => decide (patternScore b ≤ patternScore a))).take keepCount

/-- `learnFromFragment`: reinforce the existing pattern with this content's
id (frequency, last-used timestamp, variants), or insert a fresh record and
evict if the store overflows. -/
def learnFromFragment (patterns : List LearnedPattern) (fragment : CodeFragment)
    (languageId : String) (now : Nat) : List LearnedPattern :=
  let patternId := generatePatternId fragment.content
  match findPattern patterns patternId with
  | some _ =>
    patterns.map (fun p =>
      if p.id == patternId then
        { p with
          frequencia := p.frequencia + 1
          ultimoUso := now
          variacoes :=
            if p.variacoes.contains fragment.content then p.variacoes
            else p.variacoes ++ [fragment.content] }
      else p)
  | none =>
    let triggers := extractTriggers fragment.content fragment.context
    let confidence := calculatePatternConfidence fragment
    let newPattern : LearnedPattern :=
      { id := patternId
        codigo := fragment.content
        contexto := fragment.context
        frequencia := 1
        ultimoUso := now
        gatilhos := triggers
        tipoArquivo := languageId
        confianca := confidence
        variacoes := [] }
    let patterns' := patterns ++ [newPattern]
    if MAX_PATTERNS < patterns'.length then cleanupOldPatterns patterns' else patterns'

/-- The loop of `processCodeFragment`: each extracted fragment goes through
the worth-learning filter and, when accepted, into `learnFromFragment`. -/
def processFragments (patterns : List LearnedPattern) (fragmentos : List CodeFragment)
    (languageId : String) (now : Nat) : List LearnedPattern :=
  fragmentos.foldl
    (fun st fragmento =>
      if isWorthLearning st fragmento then learnFromFragment st fragmento languageId now else st)
    patterns

/-! ### Suggestions for the current context -/

/-- The output record shared by the analyzer, the learning system and the
prediction engine (`SuggestedSnippet` in `patternAnalyzer.ts`; the fields
marked `?` in TypeScript are `Option`s). -/
structure SuggestedSnippet where
  title : Option String := none
  description : Option String := none
  language : Option String := none
  code : String
  pattern : Option String := none
  similarity : Option ℚ := none
deriving DecidableEq

/-- `analyzeTypingContext`: the words of the current line and of the
context longer than two characters, deduplicated. -/
def analyzeTypingContext (currentLine context : String) : List String :=
  uniqueFirst
    (((jsSplitWs currentLine.data).map (fun l => (⟨l⟩ : String))).filter
        (fun w => 2 < w.length) ++
      ((jsSplitWs context.data).map (fun l => (⟨l⟩ : String))).filter
        (fun w => 2 < w.length))

/-- `calculateRelevance`: language match 0.2, confidence × 0.3, frequency
× 0.02 capped at 0.2, trigger-overlap fraction × 0.3, total capped at 1. -/
def calculateRelevance (pattern : LearnedPattern) (typingContext : List String)
    (language : String) : ℚ :=
  let relevance : ℚ := 0
  let relevance := if pattern.tipoArquivo = language then relevance + 1 / 5 else relevance
  let relevance := relevance + pattern.confianca * (3 / 10)
  let relevance := relevance + min (1 / 5) ((pattern.frequencia : ℚ) * (1 / 50))
  let matchingTriggers := (pattern.gatilhos.filter (fun trigger =>
    typingContext.any (fun word => jsIncludes word trigger || jsIncludes trigger word))).length
  let relevance :=
    if 0 < pattern.gatilhos.length then
      relevance + ((matchingTriggers : ℚ) / (pattern.gatilhos.length : ℚ)) * (3 / 10)
    else relevance
  min 1 relevance

/-- Matcher for `/kw\s+(\w+)/`: the first position where one of `kws`
occurs followed by whitespace and a word character; returns the keyword and
the captured word run. -/
def hasWsThenWord (l : List Char) : Bool :=
  match l with
  | [] => false
  | d :: _ =>
    wsChar d && (match l.dropWhile wsChar with | [] => false | e :: _ => wordChar e)

def captureWordAfterWs (l : List Char) : List Char :=
  (l.dropWhile wsChar).takeWhile wordChar

def findKwCaptureAux (kws : List (List Char)) : Nat → List Char → Option (List Char × List Char)
  | 0, _ => none
  | _, [] => none
  | fuel + 1, c :: rest =>
    match kws.find? (fun k => k.isPrefixOf (c :: rest) && hasWsThenWord ((c :: rest).drop k.length)) with
    | some k => some (k, captureWordAfterWs ((c :: rest).drop k.length))
    | none => findKwCaptureAux kws fuel rest

def findKwCapture (kws : List (List Char)) (l : List Char) : Option (List Char × List Char) :=
  findKwCaptureAux kws l.length l

/-- `generateSuggestionTitle`: a human-readable title from the first line
of the pattern's code. -/
def generateSuggestionTitle (pattern : LearnedPattern) : String :=
  let lines := splitOnChar '\n' pattern.codigo.data
  let firstLine : String := ⟨jsTrimList (lines.headD [])⟩
  if jsIncludes firstLine "function" then
    match findKwCapture ["function".data] firstLine.data with
    | some (_, w) => "Função: " ++ (⟨w⟩ : String)
    | none => "Função aprendida"
  else if jsIncludes firstLine "class" then
    match findKwCapture ["class".data] firstLine.data with
    | some (_, w) => "Classe: " ++ (⟨w⟩ : String)
    | none => "Classe aprendida"
  else if jsIncludes firstLine "const" || jsIncludes firstLine "let" || jsIncludes firstLine "var" then
    match findKwCapture ["const".data, "let".data, "var".data] firstLine.data with
    | some (_, w) => "Variável: " ++ (⟨w⟩ : String)
    | none => "Variável aprendida"
  else
    (⟨firstLine.data.take 30⟩ : String) ++ (if 30 < firstLine.length then "..." else "")

/-- The similarity a snippet is sorted by (`b.similarity || 0`). -/
def snippetSim (s : SuggestedSnippet) : ℚ := s.similarity.getD 0

/-- The candidate pass of `getSuggestionsForContext`: every stored pattern
with relevance above 0.3 becomes a suggestion, in store order. -/
def suggestionCandidates (patterns : List LearnedPattern)
    (currentLine context languageId : String) : List SuggestedSnippet :=
  let typingContext := analyzeTypingContext currentLine context
  patterns.filterMap (fun pattern =>
    let relevance := calculateRelevance pattern typingContext languageId
    if (3 / 10 : ℚ) < relevance then
      let pct := jsRound (relevance * 100)
      let freq := pattern.frequencia
      some { title := some (generateSuggestionTitle pattern)
             description := some s!"Padrão aprendido ({pct}% relevante, usado {freq}x)"
             language := some pattern.tipoArquivo
             code := pattern.codigo
             similarity := some relevance }
    else none)

/-- `getSuggestionsForContext`: the candidate suggestions sorted by
descending relevance, top five returned.  The current line and the ±3-line
context window are taken as inputs (the source reads them off the editor
document). -/
def getSuggestionsForContext (patterns : List LearnedPattern)
    (currentLine context languageId : String) : List SuggestedSnippet :=
  ((suggestionCandidates patterns currentLine context languageId).mergeSort
    (fun a b => decide (snippetSim b ≤ snippetSim a))).take 5

/-! ### The edit-pattern classifier (`predictiveAssistant.ts`) -/

/-- Matcher for the anchored regex `^(const|let|var)\s+\w+`. -/
def kwThenIdent (kw : List Char) (l : List Char) : Bool :=
  kw.isPrefixOf l &&
    (match l.drop kw.length with
      | [] => false
      | d :: _ =>
        wsChar d &&
          (match (l.drop kw.length).dropWhile wsChar with
            | [] => false
            | e :: _ => wordChar e))

def matchesVarDeclStart (line : String) : Bool :=
  ["const".data, "let".data, "var".data].any (fun kw => kwThenIdent kw line.data)

/-- `identifyCurrentPattern`: ordered prefix/substring heuristics over the
trimmed current line, with a final context-sensitive rule for return
statements. -/
def identifyCurrentPattern (currentLine contextCode : String) : Option String :=
  let line := jsTrim currentLine
  if jsStartsWith line "function " then some "function_declaration"
  else if jsStartsWith line "class " then some "class_declaration"
  else if matchesVarDeclStart line then some "variable_declaration"
  else if jsIncludes line "if (" || jsIncludes line "if(" then some "conditional_statement"
  else if jsIncludes line "for (" || jsIncludes line "for(" then some "loop_statement"
  else if jsIncludes line "." && !jsIncludes line "//" then some "method_call"
  else if jsIncludes line "\x7b" && !jsIncludes line "\x7d" then some "block_opening"
  else if jsIncludes contextCode "function" && jsIncludes line "return" then some "return_statement"
  else none

/-! ### Fragment extraction (`extractCodeFragments` and friends)

The editor document is its list of lines; `vscode.Range(a, 0, b, 0)` spans
from the start of line `a` to the start of line `b`, so `getText` on it
returns lines `a` to `b-1`, each with its newline. -/

structure Document where
  lines : List String

def getTextLineRange (doc : Document) (a b : Nat) : String :=
  String.join (((doc.lines.drop a).take (b - a)).map (fun l => l ++ "\n"))

/-- `extractContext`: the window of ±3 lines around `line`, clipped to the
document. -/
def extractContext (doc : Document) (line : Nat) : String :=
  getTextLineRange doc (line - 3) (min (doc.lines.length - 1) (line + 3))

/-- The generic syntax-tree node the extractors consume: a kind tag, an
optional identifier name (`id?.name`), an optional 1-indexed line range
(`loc`), and the child nodes the `for (const key in node)` walk visits. -/
inductive ASTNode where
  | node (ntype : String) (name : Option String) (loc : Option (Nat × Nat))
      (children : List ASTNode)

/-- The shared traversal skeleton of the five `extract*` visitors: emit at
the current node, then visit every child. -/
def visitAST (emit : ASTNode → List CodeFragment) : ASTNode → List CodeFragment
  | .node t n l cs =>
    emit (.node t n l cs) ++ (cs.attach.map (fun c => visitAST emit c.1)).flatten
decreasing_by
  have := List.sizeOf_lt_of_mem c.2
  simp only [ASTNode.node.sizeOf_spec]
  omega

/-- The body of `extractFunctions`' visitor. -/
def emitFunction (doc : Document) : ASTNode → List CodeFragment
  | .node t name loc _ =>
    if t = "FunctionDeclaration" then
      match loc, name with
      | some (ls, le), some _ =>
        let inicio := ls - 1
        let fim := le - 1
        let conteudo := getTextLineRange doc inicio fim
        [{ content := conteudo
           type := .funcao
           context := extractContext doc inicio
           lineCount := fim - inicio + 1
           complexity := calculateComplexity conteudo }]
      | _, _ => []
    else []

/-- The body of `extractClasses`' visitor. -/
def emitClass (doc : Document) : ASTNode → List CodeFragment
  | .node t name loc _ =>
    if t = "ClassDeclaration" then
      match loc, name with
      | some (ls, le), some _ =>
        let inicio := ls - 1
        let fim := le - 1
        let conteudo := getTextLineRange doc inicio fim
        [{ content := conteudo
           type := .classe
           context := extractContext doc inicio
           lineCount := fim - inicio + 1
           complexity := calculateComplexity conteudo }]
      | _, _ => []
    else []

/-- `isInterestingVariable`. -/
def isInterestingVariable (content : String) : Bool :=
  jsIncludes content "\x7b" || jsIncludes content "[" || jsIncludes content "=>" ||
    jsIncludes content "function"

/-- The body of `extractVariables`' visitor. -/
def emitVariable (doc : Document) : ASTNode → List CodeFragment
  | .node t _ loc _ =>
    if t = "VariableDeclaration" then
      match loc with
      | some (ls, le) =>
        let start := ls - 1
        let «end» := le - 1
        let content := jsTrim (getTextLineRange doc start «end»)
        if isInterestingVariable content then
          [{ content := content
             type := .variavel
             context := extractContext doc start
             lineCount := «end» - start + 1
             complexity := calculateComplexity content }]
        else []
      | none => []
    else []

/-- The body of `extractImports`' visitor: imports get the fixed context
label, a line count of 1 and complexity 1. -/
def emitImport (doc : Document) : ASTNode → List CodeFragment
  | .node t _ loc _ =>
    if t = "ImportDeclaration" then
      match loc with
      | some (ls, le) =>
        let start := ls - 1
        let «end» := le - 1
        let content := jsTrim (getTextLineRange doc start «end»)
        [{ content := content
           type := .importacao
           context := "file-start"
           lineCount := 1
           complexity := 1 }]
      | none => []
    else []

/-- The block kinds `extractBlocks` recognises. -/
def blockTypes : List (FragType × (String → Bool)) :=
  [(.loop, fun t => ["ForStatement", "WhileStatement", "DoWhileStatement",
      "ForInStatement", "ForOfStatement"].contains t),
    (.condicao, fun t => t == "IfStatement"),
    (.bloco, fun t => t == "TryStatement")]

/-- The body of `extractBlocks`' visitor: capture loop/conditional/try
blocks of at most 40 lines whose text is at least the minimum pattern
length. -/
def emitBlock (doc : Document) : ASTNode → List CodeFragment
  | .node t _ loc _ =>
    blockTypes.filterMap (fun bt =>
      if bt.2 t then
        match loc with
        | some (ls, le) =>
          let start := ls - 1
          let «end» := min (doc.lines.length - 1) (le - 1)
          if start < «end» ∧ «end» - start + 1 ≤ 40 then
            let content := getTextLineRange doc start «end»
            if MIN_PATTERN_LENGTH ≤ content.length then
              some { content := content
                     type := bt.1
                     context := extractContext doc start
                     lineCount := «end» - start + 1
                     complexity := calculateComplexity content }
            else none
          else none
        | none => none
      else none)

def extractFunctions (ast : ASTNode) (doc : Document) : List CodeFragment :=
  visitAST (emitFunction doc) ast

def extractClasses (ast : ASTNode) (doc : Document) : List CodeFragment :=
  visitAST (emitClass doc) ast

def extractVariables (ast : ASTNode) (doc : Document) : List CodeFragment :=
  visitAST (emitVariable doc) ast

def extractImports (ast : ASTNode) (doc : Document) : List CodeFragment :=
  visitAST (emitImport doc) ast

def extractBlocks (ast : ASTNode) (doc : Document) : List CodeFragment :=
  visitAST (emitBlock doc) ast

/-- `extractCodeFragments`: a null AST (parse failure or unsupported
language) yields no fragments; otherwise functions, classes, variables, the
imports and the blocks are collected in that order. -/
def extractCodeFragments (ast : Option ASTNode) (doc : Document) : List CodeFragment :=
  match ast with
  | none => []
  | some a =>
    extractFunctions a doc ++ extractClasses a doc ++ extractVariables a doc ++
      extractImports a doc ++ extractBlocks a doc

/-! ### The pattern analyzer (`patternAnalyzer.ts`)

`ENode` is the fragment of the estree node shape the analyzer actually
consumes; `jsonStringify` models `JSON.stringify` on those nodes (the
analyzer only ever inspects the serialized text for substrings, substring
counts and edit distance). -/

inductive ENode where
  | identifier (name : String)
  | regexLiteral (pat : String) (flags : String) (raw : String)
  | memberExpression (object : ENode) (property : ENode)
  | callExpression (callee : ENode) (arguments : List ENode)
  | returnStatement (argument : Option ENode)
  | expressionStatement (expression : ENode)
  | blockStatement (body : List ENode)
  | variableDeclarator (vid : ENode) (init : Option ENode)
  | variableDeclaration (kind : String) (declarations : List ENode)
  | functionDeclaration (fid : Option ENode) (params : List ENode) (body : ENode)
  | methodDefinition (key : ENode) (value : ENode)
  | classBody (body : List ENode)
  | classDeclaration (cid : Option ENode) (superClass : Option ENode) (body : ENode)

/-- `node.type`. -/
def typeOf : ENode → String
  | .identifier _ => "Identifier"
  | .regexLiteral _ _ _ => "Literal"
  | .memberExpression _ _ => "MemberExpression"
  | .callExpression _ _ => "CallExpression"
  | .returnStatement _ => "ReturnStatement"
  | .expressionStatement _ => "ExpressionStatement"
  | .blockStatement _ => "BlockStatement"
  | .variableDeclarator _ _ => "VariableDeclarator"
  | .variableDeclaration _ _ => "VariableDeclaration"
  | .functionDeclaration _ _ _ => "FunctionDeclaration"
  | .methodDefinition _ _ => "MethodDefinition"
  | .classBody _ => "ClassBody"
  | .classDeclaration _ _ _ => "ClassDeclaration"

mutual

def jsonStringify : ENode → String
  | .identifier name =>
    "\x7b\"type\":\"Identifier\",\"name\":\"" ++ name ++ "\"\x7d"
  | .regexLiteral pat flags raw =>
    "\x7b\"type\":\"Literal\",\"value\":\x7b\x7d,\"raw\":\"" ++ raw ++
      "\",\"regex\":\x7b\"pattern\":\"" ++ pat ++ "\",\"flags\":\"" ++ flags ++ "\"\x7d\x7d"
  | .memberExpression obj prop =>
    "\x7b\"type\":\"MemberExpression\",\"computed\":false,\"object\":" ++ jsonStringify obj ++
      ",\"property\":" ++ jsonStringify prop ++ "\x7d"
  | .callExpression callee args =>
    "\x7b\"type\":\"CallExpression\",\"callee\":" ++ jsonStringify callee ++
      ",\"arguments\":[" ++ jsonStringifyList args ++ "]\x7d"
  | .returnStatement arg =>
    "\x7b\"type\":\"ReturnStatement\",\"argument\":" ++ jsonStringifyOpt arg ++ "\x7d"
  | .expressionStatement e =>
    "\x7b\"type\":\"ExpressionStatement\",\"expression\":" ++ jsonStringify e ++ "\x7d"
  | .blockStatement body =>
    "\x7b\"type\":\"BlockStatement\",\"body\":[" ++ jsonStringifyList body ++ "]\x7d"
  | .variableDeclarator vid ini =>
    "\x7b\"type\":\"VariableDeclarator\",\"id\":" ++ jsonStringify vid ++
      ",\"init\":" ++ jsonStringifyOpt ini ++ "\x7d"
  | .variableDeclaration kind decls =>
    "\x7b\"type\":\"VariableDeclaration\",\"declarations\":[" ++ jsonStringifyList decls ++
      "],\"kind\":\"" ++ kind ++ "\"\x7d"
  | .functionDeclaration fid params body =>
    "\x7b\"type\":\"FunctionDeclaration\",\"id\":" ++ jsonStringifyOpt fid ++
      ",\"params\":[" ++ jsonStringifyList params ++ "],\"body\":" ++ jsonStringify body ++ "\x7d"
  | .methodDefinition key value =>
    "\x7b\"type\":\"MethodDefinition\",\"key\":" ++ jsonStringify key ++
      ",\"value\":" ++ jsonStringify value ++ "\x7d"
  | .classBody body =>
    "\x7b\"type\":\"ClassBody\",\"body\":[" ++ jsonStringifyList body ++ "]\x7d"
  | .classDeclaration cid sup body =>
    "\x7b\"type\":\"ClassDeclaration\",\"id\":" ++ jsonStringifyOpt cid ++
      ",\"superClass\":" ++ jsonStringifyOpt sup ++ ",\"body\":" ++ jsonStringify body ++ "\x7d"

def jsonStringifyList : List ENode → String
  | [] => ""
  | [e] => jsonStringify e
  | e :: e2 :: es => jsonStringify e ++ "," ++ jsonStringifyList (e2 :: es)

def jsonStringifyOpt : Option ENode → String
  | none => "null"
  | some e => jsonStringify e

end

/-- `levenshteinDistance`: the dynamic-programming matrix of the source
computes exactly this textbook recurrence. -/
def levenshteinDistance : List Char → List Char → Nat
  | [], s2 => s2.length
  | s1, [] => s1.length
  | x :: xs, y :: ys =>
    min
      (min (levenshteinDistance (x :: xs) ys + 1) (levenshteinDistance xs (y :: ys) + 1))
      (levenshteinDistance xs ys + (if x = y then 0 else 1))
termination_by s1 s2 => s1.length + s2.length

/-- The `FunctionDeclaration` arm of `calculateSimilarity`. -/
def similarityFunction (ps1 : List ENode) (b1 : ENode) (ps2 : List ENode) (b2 : ENode) : ℚ :=
  let score : ℚ := 3 / 10
  let score :=
    if ps1.length = ps2.length then
      let score := score + 1 / 10
      let paramTypeMatches :=
        ((ps1.zip ps2).filter (fun pq => typeOf pq.1 == typeOf pq.2)).length
      score + (1 / 10) * ((paramTypeMatches : ℚ) / (ps1.length : ℚ))
    else score
  let body1 := jsonStringify b1
  let body2 := jsonStringify b2
  let methodMatchScore := (["test", "validate", "check", "get", "set", "create",
      "update", "delete"] : List String).foldl
    (fun (acc : ℚ) pat =>
      if jsIncludes body1 pat && jsIncludes body2 pat then acc + 1 / 20 else acc) 0
  let score := score + min (1 / 5) methodMatchScore
  let structureMatchScore := (["if", "for", "while", "switch", "try"] : List String).foldl
    (fun (acc : ℚ) pat =>
      let c1 := countAltMatches [pat.data] body1.data
      let c2 := countAltMatches [pat.data] body2.data
      if c1 = c2 ∧ 0 < c1 then acc + 1 / 20 else acc) 0
  let score := score + min (1 / 5) structureMatchScore
  let bodyDistance := levenshteinDistance body1.data body2.data
  let maxBodyLength := max body1.length body2.length
  score + (1 / 10) * (1 - (bodyDistance : ℚ) / (maxBodyLength : ℚ))

/-- The `ClassDeclaration` arm of `calculateSimilarity`. -/
def similarityClass (sc1 : Option ENode) (b1 : ENode) (sc2 : Option ENode) (b2 : ENode) : ℚ :=
  let score : ℚ := 3 / 10
  let body1 := jsonStringify b1
  let body2 := jsonStringify b2
  let methodCount1 := countAltMatches ["\"type\":\"MethodDefinition\"".data] body1.data
  let methodCount2 := countAltMatches ["\"type\":\"MethodDefinition\"".data] body2.data
  let score :=
    if methodCount1 = methodCount2 then score + 1 / 5
    else score + (1 / 10) *
      (1 - (((methodCount1 : ℤ) - methodCount2).natAbs : ℚ) / ((max methodCount1 methodCount2 : ℕ) : ℚ))
  let ctorKey := "\"key\":\x7b\"type\":\"Identifier\",\"name\":\"constructor\""
  let score :=
    if jsIncludes body1 ctorKey = jsIncludes body2 ctorKey then score + 1 / 10 else score
  let propCount1 := countAltMatches ["\"type\":\"PropertyDefinition\"".data] body1.data
  let propCount2 := countAltMatches ["\"type\":\"PropertyDefinition\"".data] body2.data
  let score :=
    if propCount1 = propCount2 then score + 1 / 5
    else score + (1 / 10) *
      (1 - (((propCount1 : ℤ) - propCount2).natAbs : ℚ) / ((max propCount1 propCount2 : ℕ) : ℚ))
  let score := if sc1.isSome = sc2.isSome then score + 1 / 10 else score
  let bodyDistance := levenshteinDistance body1.data body2.data
  let maxBodyLength := max body1.length body2.length
  score + (1 / 10) * (1 - (bodyDistance : ℚ) / (maxBodyLength : ℚ))

/-- The `VariableDeclaration` arm of `calculateSimilarity` (the final
edit-distance term serializes the whole declaration nodes). -/
def similarityVariable (k1 : String) (ds1 : List ENode) (k2 : String) (ds2 : List ENode) : ℚ :=
  let score : ℚ := 3 / 10
  let score := if ds1.length = ds2.length then score + 1 / 5 else score
  let score := if k1 = k2 then score + 1 / 10 else score
  let score :=
    match ds1.head?, ds2.head? with
    | some (.variableDeclarator _ i1), some (.variableDeclarator _ i2) =>
      let score := if i1.isSome = i2.isSome then score + 1 / 10 else score
      match i1, i2 with
      | some e1, some e2 => if typeOf e1 = typeOf e2 then score + 1 / 5 else score
      | _, _ => score
    | _, _ => score
  let str1 := jsonStringify (.variableDeclaration k1 ds1)
  let str2 := jsonStringify (.variableDeclaration k2 ds2)
  let distance := levenshteinDistance str1.data str2.data
  let maxLength := max str1.length str2.length
  score + (1 / 10) * (1 - (distance : ℚ) / ((maxLength : ℕ) : ℚ))

/-- The default arm of `calculateSimilarity`: generic comparison by
normalized edit distance of the serialized nodes. -/
def similarityDefault (node1 node2 : ENode) : ℚ :=
  let str1 := jsonStringify node1
  let str2 := jsonStringify node2
  let distance := levenshteinDistance str1.data str2.data
  let maxLength := max str1.length str2.length
  1 - (distance : ℚ) / ((maxLength : ℕ) : ℚ)

/-- The final clamp `Math.max(0, Math.min(1, score))` of `calculateSimilarity`. -/
def clamp01 (score : ℚ) : ℚ :=
  max 0 (min 1 score)

/-- `calculateSimilarity`: kind-specific structural scoring between two
syntax nodes, clamped to `[0, 1]` (the `switch` arms of the source are the
`similarity*` functions above).  Division is `ℚ` division (total, with
`x / 0 = 0`); every division in the source is by a positive count on the
paths the analyzer exercises. -/
def calculateSimilarity (node1 node2 : ENode) : ℚ :=
  if typeOf node1 ≠ typeOf node2 then 0
  else
    clamp01
      (match node1, node2 with
      | .functionDeclaration _ ps1 b1, .functionDeclaration _ ps2 b2 =>
        similarityFunction ps1 b1 ps2 b2
      | .classDeclaration _ sc1 b1, .classDeclaration _ sc2 b2 =>
        similarityClass sc1 b1 sc2 b2
      | .variableDeclaration k1 ds1, .variableDeclaration k2 ds2 =>
        similarityVariable k1 ds1 k2 ds2
      | n1, n2 => similarityDefault n1 n2)

structure PatternMatch where
  node : ENode
  score : ℚ
  type : String

/-- The analyzer's pattern memory: node lists keyed by node type. -/
def AnalyzerPatterns := List (String × List ENode)

/-- The analyzer's `findSimilarPattern`: best `calculateSimilarity` match
among the stored nodes of the same type, starting from a floor score of
0.6, returned only above 0.5. -/
def analyzerFindSimilarPattern (patterns : AnalyzerPatterns) (node : ENode) :
    Option PatternMatch :=
  let tp := typeOf node
  let ps := (((patterns.find? (fun kv => kv.1 == tp)).map Prod.snd).getD [])
  match ps with
  | [] => none
  | p0 :: _ =>
    let bestMatch := ps.foldl
      (fun (best : PatternMatch) pattern =>
        let score := calculateSimilarity node pattern
        if best.score < score then { node := pattern, score := score, type := tp } else best)
      { node := p0, score := 3 / 5, type := tp }
    if (1 / 2 : ℚ) < bestMatch.score then some bestMatch else none

/-- `id?.name` on an optional identifier node. -/
def identifierName : ENode → Option String
  | .identifier n => some n
  | _ => none

/-- The analyzer's `generateTitle`. -/
def generateTitle (node : ENode) : String :=
  match node with
  | .functionDeclaration fid _ _ =>
    "Function: " ++ ((fid.bind identifierName).getD "anonymous")
  | .classDeclaration cid _ _ =>
    "Class: " ++ ((cid.bind identifierName).getD "anonymous")
  | .variableDeclaration _ ds =>
    "Variable: " ++
      (match ds.head? with
        | some (.variableDeclarator (.identifier n) _) => n
        | _ => "unnamed")
  | _ => "Code Snippet"

/-- The analyzer's `getStructuralDescription`. -/
def getStructuralDescription (node : ENode) : String :=
  match node with
  | .functionDeclaration _ params _ =>
    let k := params.length
    s!"Função com {k} parâmetro(s)"
  | .classDeclaration _ _ _ => "Declaração de classe"
  | .variableDeclaration _ ds =>
    let k := ds.length
    s!"Declaração de variável com {k} variável(eis)"
  | _ => "Trecho de código"

/-- The analyzer's `generateDescription`. -/
def generateDescription (node : ENode) (mtch : Option PatternMatch) : String :=
  match mtch with
  | none => "Auto-generated snippet"
  | some m =>
    getStructuralDescription node ++ ". This pattern is " ++
      (if (4 / 5 : ℚ) < m.score then "very similar" else "similar") ++
      " to other code in your project."

/-- `createBasicSnippet`: the fallback snippet, whose `code` is the input
verbatim. -/
def createBasicSnippet (code : String) : SuggestedSnippet :=
  let lines := splitOnChar '\n' code.data
  let title : String := ⟨(jsTrimList (lines.headD [])).take 60⟩
  { title := some (if title.isEmpty then "snippet" else title)
    description := some "Auto-generated snippet"
    language := some "javascript"
    code := code }

/-- The parsed program the external parser returns (`esprima.parseScript`):
its top-level statement list. -/
structure Program where
  body : List ENode

/-- `suggestSnippetFromCode`: parse the snippet (the parser is an external
collaborator, passed as a function that either returns a program or
signals the exception `esprima` would throw); any parse failure or empty
program falls back to `createBasicSnippet`.  Every path returns a snippet
whose `code` is the input. -/
def suggestSnippetFromCode (parse : String → Except String Program)
    (patterns : AnalyzerPatterns) (code : String) : SuggestedSnippet :=
  match parse code with
  | .error _ => createBasicSnippet code
  | .ok ast =>
    match ast.body.head? with
    | none => createBasicSnippet code
    | some mainNode =>
      let mtch := analyzerFindSimilarPattern patterns mainNode
      { title := some (generateTitle mainNode)
        description := some (generateDescription mainNode mtch)
        language := some "javascript"
        code := code
        pattern := mtch.map (fun m => m.type)
        similarity := some ((mtch.map (fun m => m.score)).getD 0) }

/-! ## Theorems -/

set_option maxRecDepth 1000000

/-- The Levenshtein distance is at most the longer input's length (the
bound that makes the residual edit-distance term of the similarity scores
non-negative). -/
theorem levenshteinDistance_le (s1 s2 : List Char) :
    levenshteinDistance s1 s2 ≤ max s1.length s2.length := by
  induction s1 generalizing s2 with
  | nil => simp [levenshteinDistance]
  | cons x xs ih =>
    induction s2 with
    | nil => simp [levenshteinDistance]
    | cons y ys ihy =>
      rw [levenshteinDistance]
      have h3 := ih ys
      simp only [List.length_cons]
      have hmin : levenshteinDistance xs ys + (if x = y then 0 else 1) ≤
          max xs.length ys.length + 1 := by
        split <;> omega
      refine le_trans (min_le_right _ _) ?_
      omega

/-- `find?` over a map by a key-preserving function. -/
theorem findPattern_map (f : LearnedPattern → LearnedPattern)
    (hid : ∀ p, (f p).id = p.id) (patterns : List LearnedPattern) (patternId : String) :
    findPattern (patterns.map f) patternId = (findPattern patterns patternId).map f := by
  induction patterns with
  | nil => rfl
  | cons p ps ih =>
    simp only [findPattern, List.map_cons, List.find?_cons] at *
    rw [hid p]
    cases hb : (p.id == patternId) <;> simp [ih]

/-- The record update `learnFromFragment` applies to the reinforced
pattern. -/
def reinforceUpdate (fragment : CodeFragment) (now : Nat) (p : LearnedPattern) :
    LearnedPattern :=
  { p with
    frequencia := p.frequencia + 1
    ultimoUso := now
    variacoes :=
      if p.variacoes.contains fragment.content then p.variacoes
      else p.variacoes ++ [fragment.content] }

/-- On the reinforcement branch, `learnFromFragment` is exactly a map of
`reinforceUpdate` over the pattern with the fragment's id. -/
theorem learnFromFragment_reinforce (patterns : List LearnedPattern)
    (fragment : CodeFragment) (languageId : String) (now : Nat) (p : LearnedPattern)
    (hp : findPattern patterns (generatePatternId fragment.content) = some p) :
    learnFromFragment patterns fragment languageId now =
      patterns.map (fun q =>
        if q.id == generatePatternId fragment.content then reinforceUpdate fragment now q
        else q) := by
  rw [learnFromFragment, hp]
  rfl

/-- Looking up the reinforced id after a reinforcement finds the updated
record. -/
theorem findPattern_learn_reinforce (patterns : List LearnedPattern)
    (fragment : CodeFragment) (languageId : String) (now : Nat) (p : LearnedPattern)
    (hp : findPattern patterns (generatePatternId fragment.content) = some p) :
    findPattern (learnFromFragment patterns fragment languageId now)
        (generatePatternId fragment.content) = some (reinforceUpdate fragment now p) := by
  rw [learnFromFragment_reinforce patterns fragment languageId now p hp]
  rw [findPattern_map]
  · rw [hp]
    have hpid : (p.id == generatePatternId fragment.content) = true := by
      have := List.find?_some hp
      simpa using this
    show some (if (p.id == generatePatternId fragment.content) = true
        then reinforceUpdate fragment now p else p) = some (reinforceUpdate fragment now p)
    rw [hpid]
    rfl
  · intro q
    split <;> rfl

/-- The patterns found by `findPattern` satisfy its predicate and belong to
the store. -/
theorem findPattern_mem {patterns : List LearnedPattern} {patternId : String}
    {p : LearnedPattern} (h : findPattern patterns patternId = some p) :
    p ∈ patterns ∧ p.id = patternId := by
  constructor
  · exact List.mem_of_find?_eq_some h
  · have := List.find?_some h
    simpa using this

/-- Claim C6: the edit-pattern classifier sends
`"function calcular(a, b) {"` to `function_declaration`,
`"  result.map(x => x)"` to `method_call`, and `"// just a comment"` to no
classification, whatever the surrounding context is. -/
theorem c6_classification_examples (contextCode : String) :
    identifyCurrentPattern "function calcular(a, b) \x7b" contextCode =
        some "function_declaration" ∧
      identifyCurrentPattern "  result.map(x => x)" contextCode = some "method_call" ∧
      identifyCurrentPattern "// just a comment" contextCode = none := by
  refine ⟨rfl, rfl, ?_⟩
  show (if (jsIncludes contextCode "function" && jsIncludes (jsTrim "// just a comment") "return") =
      true then some "return_statement" else none) = none
  rw [show jsIncludes (jsTrim "// just a comment") "return" = false from rfl, Bool.and_false]
  rfl

/-- Claim C7: snippet extraction on the malformed input
`"function test( { // malformed"` is total — whatever the external parser
does (returns a program, an empty program, or throws), the returned
snippet's `code` field is the original input verbatim, and a parse failure
yields exactly the fallback snippet. -/
theorem c7_malformed_snippet_fallback (parse : String → Except String Program)
    (patterns : AnalyzerPatterns) :
    (suggestSnippetFromCode parse patterns "function test( \x7b // malformed").code =
        "function test( \x7b // malformed" ∧
      suggestSnippetFromCode (fun _ => Except.error "Unexpected end of input") patterns
          "function test( \x7b // malformed" =
        createBasicSnippet "function test( \x7b // malformed" ∧
      (createBasicSnippet "function test( \x7b // malformed").code =
        "function test( \x7b // malformed" := by
  refine ⟨?_, rfl, rfl⟩
  rw [suggestSnippetFromCode]
  cases parse "function test( \x7b // malformed" with
  | error e => rfl
  | ok ast =>
    cases ast with
    | mk body =>
      cases body with
      | nil => rfl
      | cons n ns => rfl

/-- Claim C8: reinforcing an existing pattern changes only its frequency
(up by one), its last-used timestamp and possibly its variants; the id,
canonical code, context, triggers, language tag and confidence are
untouched, the store keeps its size, and every pattern with a different id
is left in the store unchanged. -/
theorem c8_reinforcement_frame (patterns : List LearnedPattern) (fragment : CodeFragment)
    (languageId : String) (now : Nat) (p : LearnedPattern)
    (hp : findPattern patterns (generatePatternId fragment.content) = some p) :
    ∃ p', findPattern (learnFromFragment patterns fragment languageId now)
        (generatePatternId fragment.content) = some p' ∧
      p'.id = p.id ∧ p'.codigo = p.codigo ∧ p'.contexto = p.contexto ∧
      p'.gatilhos = p.gatilhos ∧ p'.tipoArquivo = p.tipoArquivo ∧
      p'.confianca = p.confianca ∧
      p'.frequencia = p.frequencia + 1 ∧ p'.ultimoUso = now ∧
      (learnFromFragment patterns fragment languageId now).length = patterns.length ∧
      ∀ q ∈ patterns, q.id ≠ generatePatternId fragment.content →
        q ∈ learnFromFragment patterns fragment languageId now := by
  refine ⟨reinforceUpdate fragment now p, findPattern_learn_reinforce _ _ _ _ _ hp,
    rfl, rfl, rfl, rfl, rfl, rfl, rfl, rfl, ?_, ?_⟩
  · rw [learnFromFragment_reinforce _ _ _ _ _ hp, List.length_map]
  · intro q hq hne
    rw [learnFromFragment_reinforce _ _ _ _ _ hp]
    have hfix : (if (q.id == generatePatternId fragment.content) = true
        then reinforceUpdate fragment now q else q) = q := by
      rw [if_neg]
      simp [hne]
    have h2 := List.mem_map_of_mem
      (fun q => if (q.id == generatePatternId fragment.content) = true
        then reinforceUpdate fragment now q else q) hq
    rwa [show (fun q => if (q.id == generatePatternId fragment.content) = true
        then reinforceUpdate fragment now q else q) q = q from hfix] at h2

def c8Content : String := "const x = 1;"

def c8Fragment : CodeFragment :=
  { content := c8Content, type := .variavel, context := "", lineCount := 1, complexity := 1 }

def c8Pattern : LearnedPattern :=
  { id := generatePatternId c8Content
    codigo := c8Content
    contexto := "ctx"
    frequencia := 3
    ultimoUso := 7
    gatilhos := ["const"]
    tipoArquivo := "javascript"
    confianca := 1
    variacoes := ["const  x = 1;"] }

/-- Witness for C8: reinforcement of a concrete one-pattern store. -/
theorem c8_reinforcement_witness :
    ∃ p', findPattern (learnFromFragment [c8Pattern] c8Fragment "javascript" 42)
        (generatePatternId c8Fragment.content) = some p' ∧
      p'.id = c8Pattern.id ∧ p'.codigo = c8Pattern.codigo ∧ p'.contexto = c8Pattern.contexto ∧
      p'.gatilhos = c8Pattern.gatilhos ∧ p'.tipoArquivo = c8Pattern.tipoArquivo ∧
      p'.confianca = c8Pattern.confianca ∧
      p'.frequencia = c8Pattern.frequencia + 1 ∧ p'.ultimoUso = 42 ∧
      (learnFromFragment [c8Pattern] c8Fragment "javascript" 42).length =
        [c8Pattern].length ∧
      ∀ q ∈ [c8Pattern], q.id ≠ generatePatternId c8Fragment.content →
        q ∈ learnFromFragment [c8Pattern] c8Fragment "javascript" 42 :=
  c8_reinforcement_frame [c8Pattern] c8Fragment "javascript" 42 c8Pattern rfl

/-- `List.contains` (an abbreviation of `elem`) decides membership for
strings. -/
theorem contains_iff_mem {l : List String} {a : String} : l.contains a = true ↔ a ∈ l :=
  List.elem_iff

/-- Claim C9 (amended): every pattern's variants stay pairwise distinct
through learning, and on reinforcement the fragment's raw content is
appended exactly when it differs from all stored variants — the canonical
`codigo` is not consulted, so content equal to the canonical code is
appended the first time it reinforces. -/
theorem c9_variants_invariant (patterns : List LearnedPattern) (fragment : CodeFragment)
    (languageId : String) (now : Nat)
    (hnd : ∀ p ∈ patterns, p.variacoes.Nodup) :
    (∀ q ∈ learnFromFragment patterns fragment languageId now, q.variacoes.Nodup) ∧
      ∀ p, findPattern patterns (generatePatternId fragment.content) = some p →
        ∃ q, findPattern (learnFromFragment patterns fragment languageId now)
            (generatePatternId fragment.content) = some q ∧
          fragment.content ∈ q.variacoes ∧
          (fragment.content ∈ p.variacoes → q.variacoes = p.variacoes) ∧
          (fragment.content ∉ p.variacoes → q.variacoes = p.variacoes ++ [fragment.content]) := by
  constructor
  · intro q hq
    cases h : findPattern patterns (generatePatternId fragment.content) with
    | some p =>
      rw [learnFromFragment_reinforce _ _ _ _ _ h] at hq
      rcases List.mem_map.1 hq with ⟨r, hr, rfl⟩
      split
      · show (if r.variacoes.contains fragment.content = true then r.variacoes
            else r.variacoes ++ [fragment.content]).Nodup
        split
        · exact hnd r hr
        · rename_i hc
          rw [List.nodup_append]
          refine ⟨hnd r hr, List.nodup_singleton _, ?_⟩
          intro a ha hb
          rw [List.mem_singleton] at hb
          subst hb
          exact hc (contains_iff_mem.2 ha)
      · exact hnd r hr
    | none =>
      simp only [learnFromFragment, h] at hq
      have hq' : q ∈ patterns ∨ q.variacoes = [] := by
        split at hq
        · simp only [cleanupOldPatterns] at hq
          have hmem := ((List.mergeSort_perm _ _).mem_iff).1 (List.mem_of_mem_take hq)
          rcases List.mem_append.1 hmem with h1 | h1
          · exact Or.inl h1
          · rw [List.mem_singleton] at h1
            subst h1
            exact Or.inr rfl
        · rcases List.mem_append.1 hq with h1 | h1
          · exact Or.inl h1
          · rw [List.mem_singleton] at h1
            subst h1
            exact Or.inr rfl
      rcases hq' with h1 | h1
      · exact hnd q h1
      · rw [h1]
        exact List.nodup_nil
  · intro p hp
    refine ⟨reinforceUpdate fragment now p, findPattern_learn_reinforce _ _ _ _ _ hp, ?_, ?_, ?_⟩
    · show fragment.content ∈
        (if p.variacoes.contains fragment.content = true then p.variacoes
          else p.variacoes ++ [fragment.content])
      split
      · rename_i hc
        exact contains_iff_mem.1 hc
      · exact List.mem_append_right _ (List.mem_singleton_self _)
    · intro hmem
      show (if p.variacoes.contains fragment.content = true then p.variacoes
          else p.variacoes ++ [fragment.content]) = p.variacoes
      rw [if_pos (contains_iff_mem.2 hmem)]
    · intro hmem
      show (if p.variacoes.contains fragment.content = true then p.variacoes
          else p.variacoes ++ [fragment.content]) = p.variacoes ++ [fragment.content]
      rw [if_neg (fun hc => hmem (contains_iff_mem.1 hc))]

/-- Counterexample for C9: learning the same fragment twice from an empty
store leaves the pattern with one variant equal to its canonical code —
reinforcement by content identical to the first-seen code does add a
variant. -/
theorem c9_variant_counterexample :
    (findPattern (learnFromFragment (learnFromFragment [] c8Fragment "javascript" 0)
          c8Fragment "javascript" 1) (generatePatternId c8Fragment.content)).map
        (fun p => (p.codigo, p.variacoes)) =
      some ("const x = 1;", ["const x = 1;"]) := rfl

/-- Witness for C9: the invariant applied to a concrete one-pattern
store. -/
theorem c9_variants_witness :
    (∀ q ∈ learnFromFragment [c8Pattern] c8Fragment "javascript" 42, q.variacoes.Nodup) ∧
      ∀ p, findPattern [c8Pattern] (generatePatternId c8Fragment.content) = some p →
        ∃ q, findPattern (learnFromFragment [c8Pattern] c8Fragment "javascript" 42)
            (generatePatternId c8Fragment.content) = some q ∧
          c8Fragment.content ∈ q.variacoes ∧
          (c8Fragment.content ∈ p.variacoes → q.variacoes = p.variacoes) ∧
          (c8Fragment.content ∉ p.variacoes →
            q.variacoes = p.variacoes ++ [c8Fragment.content]) :=
  c9_variants_invariant [c8Pattern] c8Fragment "javascript" 42
    (by
      intro p hp
      rw [List.mem_singleton] at hp
      subst hp
      decide)

theorem one_le_complexity_form (a b c : ℕ) : (1 : ℚ) ≤ 1 + a + b + c * (1 / 2) := by
  have ha : (0 : ℚ) ≤ a := Nat.cast_nonneg a
  have hb : (0 : ℚ) ≤ b := Nat.cast_nonneg b
  have hc : (0 : ℚ) ≤ c := Nat.cast_nonneg c
  nlinarith

/-- The complexity heuristic never drops below its base 1: all its
contributions are counts, hence non-negative. -/
theorem one_le_calculateComplexity (code : String) : 1 ≤ calculateComplexity code := by
  simp only [calculateComplexity]
  exact one_le_complexity_form _ _ _

/-- Strong-induction principle for the shared traversal: a property of
everything an emitter produces holds of everything the traversal
produces. -/
theorem mem_visitAST {emit : ASTNode → List CodeFragment} {P : CodeFragment → Prop}
    (hemit : ∀ n f, f ∈ emit n → P f) :
    ∀ (ast : ASTNode) (f : CodeFragment), f ∈ visitAST emit ast → P f := by
  suffices h : ∀ (k : Nat) (ast : ASTNode), sizeOf ast ≤ k → ∀ f ∈ visitAST emit ast, P f by
    intro ast f hf
    exact h (sizeOf ast) ast le_rfl f hf
  intro k
  induction k with
  | zero =>
    intro ast hsz
    exfalso
    cases ast with
    | node t n l cs =>
      rw [ASTNode.node.sizeOf_spec] at hsz
      omega
  | succ k ih =>
    intro ast hsz f hf
    cases ast with
    | node t n l cs =>
      rw [visitAST] at hf
      rcases List.mem_append.1 hf with h1 | h2
      · exact hemit _ f h1
      · rw [List.mem_flatten] at h2
        rcases h2 with ⟨sub, hsub, hfsub⟩
        rw [List.mem_map] at hsub
        rcases hsub with ⟨c, _, rfl⟩
        refine ih c.1 ?_ f hfsub
        have hlt := List.sizeOf_lt_of_mem c.2
        rw [ASTNode.node.sizeOf_spec] at hsz
        omega

theorem emitFunction_complexity (doc : Document) :
    ∀ n f, f ∈ emitFunction doc n → 1 ≤ f.complexity := by
  intro n f h
  cases n with
  | node t name loc cs =>
    simp only [emitFunction] at h
    split at h
    · split at h
      · rw [List.mem_singleton] at h
        subst h
        exact one_le_calculateComplexity _
      · exact absurd h (List.not_mem_nil f)
    · exact absurd h (List.not_mem_nil f)

theorem emitClass_complexity (doc : Document) :
    ∀ n f, f ∈ emitClass doc n → 1 ≤ f.complexity := by
  intro n f h
  cases n with
  | node t name loc cs =>
    simp only [emitClass] at h
    split at h
    · split at h
      · rw [List.mem_singleton] at h
        subst h
        exact one_le_calculateComplexity _
      · exact absurd h (List.not_mem_nil f)
    · exact absurd h (List.not_mem_nil f)

theorem emitVariable_complexity (doc : Document) :
    ∀ n f, f ∈ emitVariable doc n → 1 ≤ f.complexity := by
  intro n f h
  cases n with
  | node t name loc cs =>
    simp only [emitVariable] at h
    split at h
    · split at h
      · split at h
        · rw [List.mem_singleton] at h
          subst h
          exact one_le_calculateComplexity _
        · exact absurd h (List.not_mem_nil f)
      · exact absurd h (List.not_mem_nil f)
    · exact absurd h (List.not_mem_nil f)

theorem emitImport_complexity_eq (doc : Document) :
    ∀ n f, f ∈ emitImport doc n → f.complexity = 1 := by
  intro n f h
  cases n with
  | node t name loc cs =>
    simp only [emitImport] at h
    split at h
    · split at h
      · rw [List.mem_singleton] at h
        subst h
        rfl
      · exact absurd h (List.not_mem_nil f)
    · exact absurd h (List.not_mem_nil f)

theorem emitBlock_complexity (doc : Document) :
    ∀ n f, f ∈ emitBlock doc n → 1 ≤ f.complexity := by
  intro n f h
  cases n with
  | node t name loc cs =>
    simp only [emitBlock] at h
    rw [List.mem_filterMap] at h
    rcases h with ⟨bt, _, hbt⟩
    split at hbt
    · split at hbt
      · split at hbt
        · split at hbt
          · rw [Option.some_inj] at hbt
            subst hbt
            exact one_le_calculateComplexity _
          · exact absurd hbt (by simp)
        · exact absurd hbt (by simp)
      · exact absurd hbt (by simp)
    · exact absurd hbt (by simp)

/-- Claim C10: the complexity heuristic returns at least 1 on every input,
the import fragments are created with complexity exactly 1, and therefore the
worth-learning rejection branch for `complexity < 1` is unreachable for
every fragment the extractor produces (its diagnostic is never
`complexidade`). -/
theorem c10_complexity_floor :
    (∀ code, 1 ≤ calculateComplexity code) ∧
      (∀ (ast : ASTNode) (doc : Document), ∀ f ∈ extractImports ast doc, f.complexity = 1) ∧
      (∀ (ast : Option ASTNode) (doc : Document), ∀ f ∈ extractCodeFragments ast doc,
        1 ≤ f.complexity ∧
          ∀ patterns, reasonNotWorth patterns f ≠ "complexidade") := by
  have himp : ∀ (ast : ASTNode) (doc : Document), ∀ f ∈ extractImports ast doc,
      f.complexity = 1 :=
    fun ast doc f hf => mem_visitAST (emitImport_complexity_eq doc) ast f hf
  have hfloor : ∀ (ast : Option ASTNode) (doc : Document), ∀ f ∈ extractCodeFragments ast doc,
      1 ≤ f.complexity := by
    intro ast doc f hf
    cases ast with
    | none => exact absurd hf (List.not_mem_nil f)
    | some a =>
      simp only [extractCodeFragments, List.mem_append] at hf
      rcases hf with ((((h | h) | h) | h) | h)
      · exact mem_visitAST (emitFunction_complexity doc) a f h
      · exact mem_visitAST (emitClass_complexity doc) a f h
      · exact mem_visitAST (emitVariable_complexity doc) a f h
      · have := mem_visitAST (emitImport_complexity_eq doc) a f h
        rw [this]
      · exact mem_visitAST (emitBlock_complexity doc) a f h
  refine ⟨one_le_calculateComplexity, himp, fun ast doc f hf => ⟨hfloor ast doc f hf, ?_⟩⟩
  intro patterns
  have hc := hfloor ast doc f hf
  simp only [reasonNotWorth]
  split
  · decide
  · split
    · decide
    · split
      · rename_i hlt
        exact absurd hlt (not_lt.2 hc)
      · split
        · split
          · decide
          · decide
        · decide

def c10Doc : Document := ⟨["import x from \"y\";"]⟩

def c10Ast : ASTNode := .node "ImportDeclaration" none (some (1, 1)) []

def c10Fragment : CodeFragment :=
  { content := "", type := .importacao, context := "file-start", lineCount := 1, complexity := 1 }

/-- Witness for C10: a concrete one-import syntax tree. -/
theorem c10_complexity_witness :
    (1 : ℚ) ≤ calculateComplexity "" ∧
      c10Fragment ∈ extractCodeFragments (some c10Ast) c10Doc ∧
      1 ≤ c10Fragment.complexity ∧
      ∀ patterns, reasonNotWorth patterns c10Fragment ≠ "complexidade" := by
  have h1 : extractImports c10Ast c10Doc = [c10Fragment] := by
    rw [extractImports, c10Ast, visitAST]
    rfl
  have h2 : extractFunctions c10Ast c10Doc = [] := by
    rw [extractFunctions, c10Ast, visitAST]
    rfl
  have h3 : extractClasses c10Ast c10Doc = [] := by
    rw [extractClasses, c10Ast, visitAST]
    rfl
  have h4 : extractVariables c10Ast c10Doc = [] := by
    rw [extractVariables, c10Ast, visitAST]
    rfl
  have h5 : extractBlocks c10Ast c10Doc = [] := by
    rw [extractBlocks, c10Ast, visitAST]
    rfl
  have hmem : c10Fragment ∈ extractCodeFragments (some c10Ast) c10Doc := by
    simp only [extractCodeFragments, h1, h2, h3, h4, h5]
    simp
  obtain ⟨ha, _, hcc⟩ := c10_complexity_floor
  exact ⟨ha "", hmem, (hcc (some c10Ast) c10Doc c10Fragment hmem).1,
    (hcc (some c10Ast) c10Doc c10Fragment hmem).2⟩

theorem keepCount_eq : keepCount = 800 := by
  rw [keepCount, MAX_PATTERNS]
  rw [show ((1000 : ℕ) : ℚ) * (4 / 5) = ((800 : ℕ) : ℚ) by norm_num]
  rw [Int.floor_natCast]
  rfl

theorem cleanup_length (l : List LearnedPattern) :
    (cleanupOldPatterns l).length = min keepCount l.length := by
  rw [cleanupOldPatterns, List.length_take,
    (List.mergeSort_perm l (fun a b => decide (patternScore b ≤ patternScore a))).length_eq]

theorem patternLe_trans : ∀ a b c : LearnedPattern,
    (decide (patternScore b ≤ patternScore a)) = true →
    (decide (patternScore c ≤ patternScore b)) = true →
    (decide (patternScore c ≤ patternScore a)) = true := by
  intro a b c hab hbc
  exact decide_eq_true (le_trans (of_decide_eq_true hbc) (of_decide_eq_true hab))

theorem patternLe_total : ∀ a b : LearnedPattern,
    ((decide (patternScore b ≤ patternScore a)) || (decide (patternScore a ≤ patternScore b))) =
      true := by
  intro a b
  rcases le_total (patternScore b) (patternScore a) with h | h
  · rw [decide_eq_true h, Bool.true_or]
  · rw [decide_eq_true h, Bool.or_true]

/-- Claim C3: after an eviction the store holds exactly the top
`keepCount = floor(0.8 × 1000) = 800` patterns by descending
`frequencia × confianca` (stable, hence deterministic): the kept list is
sorted by that score, every kept pattern scores at least every dropped one,
kept and dropped together are a permutation of the old store, and the store
size after any `learnFromFragment` never exceeds
`max (previous size) MAX_PATTERNS`. -/
theorem c3_cleanup_capacity (patterns : List LearnedPattern) :
    ∃ dropped : List LearnedPattern,
      (cleanupOldPatterns patterns ++ dropped).Perm patterns ∧
      (cleanupOldPatterns patterns).length = min keepCount patterns.length ∧
      keepCount = 800 ∧ MAX_PATTERNS = 1000 ∧
      (cleanupOldPatterns patterns).length ≤ MAX_PATTERNS ∧
      List.Sorted (fun a b => patternScore b ≤ patternScore a) (cleanupOldPatterns patterns) ∧
      (∀ p ∈ cleanupOldPatterns patterns, ∀ q ∈ dropped, patternScore q ≤ patternScore p) ∧
      ∀ fragment languageId now,
        (learnFromFragment patterns fragment languageId now).length ≤
          max patterns.length MAX_PATTERNS := by
  have hpair := List.sorted_mergeSort patternLe_trans patternLe_total patterns
  have hpair' : List.Pairwise (fun a b => patternScore b ≤ patternScore a)
      (patterns.mergeSort (fun a b => decide (patternScore b ≤ patternScore a))) :=
    hpair.imp (fun h => of_decide_eq_true h)
  refine ⟨(patterns.mergeSort (fun a b => decide (patternScore b ≤ patternScore a))).drop
    keepCount, ?_, cleanup_length patterns, keepCount_eq, rfl, ?_, ?_, ?_, ?_⟩
  · rw [cleanupOldPatterns, List.take_append_drop]
    exact List.mergeSort_perm _ _
  · rw [cleanup_length patterns, keepCount_eq, MAX_PATTERNS]
    omega
  · rw [cleanupOldPatterns]
    exact hpair'.sublist (List.take_sublist _ _)
  · rw [cleanupOldPatterns]
    have := (List.pairwise_append.1
      ((List.take_append_drop keepCount
        (patterns.mergeSort (fun a b => decide (patternScore b ≤ patternScore a)))).symm ▸
          hpair')).2.2
    exact fun p hp q hq => this p hp q hq
  · intro fragment languageId now
    rw [learnFromFragment]
    split
    · rw [List.length_map]
      exact le_max_left _ _
    · dsimp only
      split
      · rw [cleanup_length, keepCount_eq, MAX_PATTERNS]
        omega
      · rename_i hnot
        rw [MAX_PATTERNS] at hnot ⊢
        rw [List.length_append] at hnot ⊢
        omega

/-- Witness for C3: the capacity facts at a concrete store. -/
theorem c3_cleanup_witness :
    (cleanupOldPatterns [c8Pattern]).length = min keepCount [c8Pattern].length ∧
      keepCount = 800 := by
  obtain ⟨_, _, h2, h3, _⟩ := c3_cleanup_capacity [c8Pattern]
  exact ⟨h2, h3⟩

/-- Follows the spec's words for claim C4: the fraction of the pattern's
triggers that textually overlap the typing-context tokens (0 when the
pattern has no triggers). -/
def triggerOverlapFraction (pattern : LearnedPattern) (typingContext : List String) : ℚ :=
  if pattern.gatilhos.length = 0 then 0
  else
    ((pattern.gatilhos.filter (fun trigger =>
        typingContext.any (fun word => jsIncludes word trigger || jsIncludes trigger word))).length : ℚ) /
      (pattern.gatilhos.length : ℚ)

theorem snippetLe_trans : ∀ a b c : SuggestedSnippet,
    (decide (snippetSim b ≤ snippetSim a)) = true →
    (decide (snippetSim c ≤ snippetSim b)) = true →
    (decide (snippetSim c ≤ snippetSim a)) = true := by
  intro a b c hab hbc
  exact decide_eq_true (le_trans (of_decide_eq_true hbc) (of_decide_eq_true hab))

theorem snippetLe_total : ∀ a b : SuggestedSnippet,
    ((decide (snippetSim b ≤ snippetSim a)) || (decide (snippetSim a ≤ snippetSim b))) = true := by
  intro a b
  rcases le_total (snippetSim b) (snippetSim a) with h | h
  · rw [decide_eq_true h, Bool.true_or]
  · rw [decide_eq_true h, Bool.or_true]

/-- Claim C4: the relevance score is 0.2 for a language match, plus 0.3 ×
confidence, plus `min 0.2 (0.02 × frequency)`, plus 0.3 × the fraction of
the pattern's triggers overlapping the typing-context tokens, capped at 1;
only patterns scoring strictly above 0.3 become candidates, and the
returned suggestions are at most five, sorted by descending relevance, and
are a top segment: together with the omitted candidates they permute the
full candidate list, and every returned suggestion scores at least every
omitted candidate. -/
theorem c4_relevance_and_suggestions (patterns : List LearnedPattern)
    (currentLine context languageId : String) :
    (∀ pattern typingContext,
      calculateRelevance pattern typingContext languageId =
        min 1 ((if pattern.tipoArquivo = languageId then (1 / 5 : ℚ) else 0) +
          (3 / 10) * pattern.confianca +
          min (1 / 5) ((1 / 50) * (pattern.frequencia : ℚ)) +
          (3 / 10) * triggerOverlapFraction pattern typingContext)) ∧
      (getSuggestionsForContext patterns currentLine context languageId).length ≤ 5 ∧
      List.Sorted (fun a b => snippetSim b ≤ snippetSim a)
        (getSuggestionsForContext patterns currentLine context languageId) ∧
      (∀ s ∈ getSuggestionsForContext patterns currentLine context languageId,
        ∃ p ∈ patterns, s.code = p.codigo ∧
          s.similarity =
            some (calculateRelevance p (analyzeTypingContext currentLine context) languageId) ∧
          (3 / 10 : ℚ) <
            calculateRelevance p (analyzeTypingContext currentLine context) languageId) ∧
      ∃ omitted : List SuggestedSnippet,
        (getSuggestionsForContext patterns currentLine context languageId ++ omitted).Perm
          (suggestionCandidates patterns currentLine context languageId) ∧
        ∀ s ∈ getSuggestionsForContext patterns currentLine context languageId,
          ∀ t ∈ omitted, snippetSim t ≤ snippetSim s := by
  have hpair' : List.Pairwise (fun a b => snippetSim b ≤ snippetSim a)
      ((suggestionCandidates patterns currentLine context languageId).mergeSort
        (fun a b => decide (snippetSim b ≤ snippetSim a))) :=
    (List.sorted_mergeSort snippetLe_trans snippetLe_total
      (suggestionCandidates patterns currentLine context languageId)).imp
      (fun h => of_decide_eq_true h)
  refine ⟨?_, ?_, ?_, ?_, ?_⟩
  · intro pattern typingContext
    simp only [calculateRelevance, triggerOverlapFraction]
    rw [mul_comm ((1 : ℚ) / 50) (pattern.frequencia : ℚ)]
    congr 1
    split_ifs <;> first | ring1 | (exfalso; omega)
  · rw [getSuggestionsForContext]
    rw [List.length_take]
    exact min_le_left _ _
  · rw [getSuggestionsForContext]
    exact hpair'.sublist (List.take_sublist _ _)
  · intro s hs
    rw [getSuggestionsForContext] at hs
    have hs2 := ((List.mergeSort_perm _ _).mem_iff).1 (List.mem_of_mem_take hs)
    rw [suggestionCandidates] at hs2
    try dsimp only at hs2
    rw [List.mem_filterMap] at hs2
    rcases hs2 with ⟨p, hp, hF⟩
    refine ⟨p, hp, ?_⟩
    try dsimp only at hF
    split at hF
    · rename_i hrel
      rw [Option.some_inj] at hF
      subst hF
      exact ⟨rfl, rfl, hrel⟩
    · exact absurd hF (by simp)
  · refine ⟨((suggestionCandidates patterns currentLine context languageId).mergeSort
      (fun a b => decide (snippetSim b ≤ snippetSim a))).drop 5, ?_, ?_⟩
    · rw [getSuggestionsForContext, List.take_append_drop]
      exact List.mergeSort_perm _ _
    · rw [getSuggestionsForContext]
      have := (List.pairwise_append.1
        ((List.take_append_drop 5
          ((suggestionCandidates patterns currentLine context languageId).mergeSort
            (fun a b => decide (snippetSim b ≤ snippetSim a)))).symm ▸ hpair')).2.2
      exact fun s hs t ht => this s hs t ht

/-- Witness for C4: the relevance formula and the top-five bound at a
concrete store. -/
theorem c4_relevance_witness :
    (calculateRelevance c8Pattern ["const"] "javascript" =
      min 1 ((if c8Pattern.tipoArquivo = "javascript" then (1 / 5 : ℚ) else 0) +
        (3 / 10) * c8Pattern.confianca +
        min (1 / 5) ((1 / 50) * (c8Pattern.frequencia : ℚ)) +
        (3 / 10) * triggerOverlapFraction c8Pattern ["const"])) ∧
      (getSuggestionsForContext [c8Pattern] "const x" "" "javascript").length ≤ 5 := by
  obtain ⟨hf, hlen, _, _, _⟩ := c4_relevance_and_suggestions [c8Pattern] "const x" "" "javascript"
  exact ⟨hf c8Pattern ["const"], hlen⟩

/-- Modelled from the spec's words for claim C2 (the refinement being
checked): accept a fragment iff it meets the minimum length, the line
bound, the complexity floor, and no already-stored pattern matches its
content with similarity at or above the high threshold 0.9. -/
def specWorthLearning (patterns : List LearnedPattern) (fragment : CodeFragment) : Bool :=
  decide (MIN_PATTERN_LENGTH ≤ fragment.content.length) &&
    decide (fragment.lineCount ≤ 50) &&
    decide ((1 : ℚ) ≤ fragment.complexity) &&
    !(patterns.any (fun p =>
      decide ((9 / 10 : ℚ) ≤ calculateCodeSimilarity fragment.content p.codigo)))

/-- Claim C2 (amended): the worth-learning policy accepts iff the length,
line-count and complexity bounds hold and the first stored pattern whose
Jaccard similarity with the content exceeds 0.8 — if any — has confidence
at most 0.9.  The near-duplicate rejection tests that pattern's
*confidence* (> 0.9), not its similarity; the similarity cut is > 0.8. -/
theorem c2_worth_learning_characterization (patterns : List LearnedPattern)
    (fragment : CodeFragment) (p : LearnedPattern) :
    (isWorthLearning patterns fragment = true ↔
      (MIN_PATTERN_LENGTH ≤ fragment.content.length ∧ fragment.lineCount ≤ 50 ∧
        1 ≤ fragment.complexity ∧
        ∀ q, findSimilarPattern patterns fragment.content = some q → q.confianca ≤ 9 / 10)) ∧
      (findSimilarPattern patterns fragment.content = some p →
        p ∈ patterns ∧ (4 / 5 : ℚ) < calculateCodeSimilarity fragment.content p.codigo) := by
  constructor
  · rw [isWorthLearning]
    split_ifs with h1 h2 h3
    · constructor
      · intro hf
        exact absurd hf (by simp)
      · rintro ⟨hlen, -, -, -⟩
        exact absurd hlen (not_le.2 h1)
    · constructor
      · intro hf
        exact absurd hf (by simp)
      · rintro ⟨-, hlc, -, -⟩
        exact absurd hlc (not_le.2 h2)
    · constructor
      · intro hf
        exact absurd hf (by simp)
      · rintro ⟨-, -, hc, -⟩
        exact absurd hc (not_le.2 h3)
    · split
      · rename_i similar heq
        split_ifs with h4
        · constructor
          · intro hf
            exact absurd hf (by simp)
          · rintro ⟨-, -, -, hq⟩
            exact absurd (hq similar heq) (not_le.2 h4)
        · constructor
          · intro _
            refine ⟨not_lt.1 h1, not_lt.1 h2, not_lt.1 h3, ?_⟩
            intro q hq
            rw [heq, Option.some_inj] at hq
            subst hq
            exact not_lt.1 h4
          · intro _
            rfl
      · rename_i heq
        constructor
        · intro _
          refine ⟨not_lt.1 h1, not_lt.1 h2, not_lt.1 h3, ?_⟩
          intro q hq
          rw [heq] at hq
          cases hq
        · intro _
          rfl
  · intro hfind
    rw [findSimilarPattern] at hfind
    have h5 := List.find?_some hfind
    exact ⟨List.mem_of_find?_eq_some hfind, of_decide_eq_true h5⟩

def c2Content : String := "const total = soma + valor;"

def c2Fragment : CodeFragment :=
  { content := c2Content, type := .variavel, context := "", lineCount := 1, complexity := 2 }

def c2Pattern : LearnedPattern :=
  { id := "pattern_1"
    codigo := c2Content
    contexto := ""
    frequencia := 1
    ultimoUso := 0
    gatilhos := []
    tipoArquivo := "javascript"
    confianca := 0
    variacoes := [] }

theorem c2_sim_self : calculateCodeSimilarity c2Content c2Content = 1 := by
  show ((6 : ℕ) : ℚ) / ((6 : ℕ) : ℚ) = 1
  norm_num

theorem c2_findSimilar : findSimilarPattern [c2Pattern] c2Fragment.content = some c2Pattern := by
  rw [findSimilarPattern]
  apply List.find?_cons_of_pos
  show decide ((4 / 5 : ℚ) < calculateCodeSimilarity c2Fragment.content c2Pattern.codigo) = true
  apply decide_eq_true
  show (4 / 5 : ℚ) < calculateCodeSimilarity c2Content c2Content
  rw [c2_sim_self]
  norm_num

/-- Counterexample for C2: a store holding a pattern with content identical
to the fragment (similarity 1 ≥ 0.9) but confidence 0 — the code accepts
the fragment, while the similarity-threshold policy of the claim rejects
it. -/
theorem c2_worth_learning_counterexample :
    isWorthLearning [c2Pattern] c2Fragment = true ∧
      specWorthLearning [c2Pattern] c2Fragment = false := by
  constructor
  · rw [isWorthLearning, if_neg (by decide), if_neg (by decide),
      if_neg (show ¬(c2Fragment.complexity < 1) by
        show ¬((2 : ℚ) < 1)
        norm_num),
      c2_findSimilar]
    show (if (9 / 10 : ℚ) < c2Pattern.confianca then false else true) = true
    rw [if_neg (show ¬((9 / 10 : ℚ) < c2Pattern.confianca) by
      show ¬((9 / 10 : ℚ) < 0)
      norm_num)]
  · have hany : ([c2Pattern].any (fun p =>
        decide ((9 / 10 : ℚ) ≤ calculateCodeSimilarity c2Fragment.content p.codigo))) = true := by
      show (decide ((9 / 10 : ℚ) ≤ calculateCodeSimilarity c2Fragment.content c2Pattern.codigo) ||
        ([] : List LearnedPattern).any _) = true
      rw [decide_eq_true (show (9 / 10 : ℚ) ≤
          calculateCodeSimilarity c2Fragment.content c2Pattern.codigo by
        show (9 / 10 : ℚ) ≤ calculateCodeSimilarity c2Content c2Content
        rw [c2_sim_self]
        norm_num)]
      rfl
    rw [specWorthLearning, hany, Bool.not_true, Bool.and_false]

/-- Witness for C2: the characterization at a concrete store and
fragment. -/
theorem c2_worth_learning_witness :
    (isWorthLearning [c2Pattern] c2Fragment = true ↔
      (MIN_PATTERN_LENGTH ≤ c2Fragment.content.length ∧ c2Fragment.lineCount ≤ 50 ∧
        1 ≤ c2Fragment.complexity ∧
        ∀ q, findSimilarPattern [c2Pattern] c2Fragment.content = some q →
          q.confianca ≤ 9 / 10)) ∧
      (findSimilarPattern [c2Pattern] c2Fragment.content = some c2Pattern →
        c2Pattern ∈ [c2Pattern] ∧
          (4 / 5 : ℚ) < calculateCodeSimilarity c2Fragment.content c2Pattern.codigo) :=
  c2_worth_learning_characterization [c2Pattern] c2Fragment c2Pattern

/-! ### Claim C1: the end-to-end double-learning scenario -/

def vfContent : String :=
  "function validateEmail(email) \x7b const regex = /.../; return regex.test(email); \x7d"

def vfFragment : CodeFragment :=
  { content := vfContent
    type := .funcao
    context := ""
    lineCount := 1
    complexity := calculateComplexity vfContent }

def vfPattern : LearnedPattern :=
  { id := generatePatternId vfContent
    codigo := vfContent
    contexto := ""
    frequencia := 1
    ultimoUso := 0
    gatilhos := extractTriggers vfContent ""
    tipoArquivo := "javascript"
    confianca := calculatePatternConfidence vfFragment
    variacoes := [] }

theorem vf_complexity : calculateComplexity vfContent = 5 / 2 := by
  simp only [calculateComplexity]
  rw [show countAltMatches
      ["if".data, "else".data, "for".data, "while".data, "switch".data, "try".data, "catch".data]
      vfContent.data = 0 from rfl]
  rw [show countAltMatches ["function".data, "=>".data] vfContent.data = 1 from rfl]
  rw [show (vfContent.data.countP (fun c => c == '\x7b' || c == '[')) = 1 from rfl]
  push_cast
  norm_num

theorem vf_confidence : calculatePatternConfidence vfFragment = 1 := by
  rw [calculatePatternConfidence]
  simp only [show vfFragment.type = FragType.funcao from rfl,
    show hasGoodStructure vfFragment.content = true from rfl,
    show vfFragment.complexity = (5 / 2 : ℚ) from vf_complexity,
    eq_self_iff_true, if_true]
  rw [show (5 / 2 : ℚ) * (1 / 10) = 1 / 4 by norm_num]
  rw [min_eq_right (show (1 / 4 : ℚ) ≤ 3 / 10 by norm_num)]
  rw [min_eq_left (show (1 : ℚ) ≤ 1 / 2 + 1 / 4 + 1 / 5 + 1 / 10 by norm_num)]

theorem vf_sim_self : calculateCodeSimilarity vfContent vfContent = 1 := by
  show ((10 : ℕ) : ℚ) / ((10 : ℕ) : ℚ) = 1
  norm_num

theorem vf_findSimilar : findSimilarPattern [vfPattern] vfFragment.content = some vfPattern := by
  rw [findSimilarPattern]
  apply List.find?_cons_of_pos
  show decide ((4 / 5 : ℚ) < calculateCodeSimilarity vfFragment.content vfPattern.codigo) = true
  apply decide_eq_true
  show (4 / 5 : ℚ) < calculateCodeSimilarity vfContent vfContent
  rw [vf_sim_self]
  norm_num

/-- Evaluation of the pipeline (worth-learning filter, then learn) applied
twice to the `validateEmail` fragment: the second pass is rejected by the
near-duplicate filter, because the stored pattern's similarity is 1 > 0.8
and its confidence is 1 > 0.9. -/
theorem vf_pipeline_eval :
    processFragments (processFragments [] [vfFragment] "javascript" 0) [vfFragment]
      "javascript" 1 = [vfPattern] := by
  have h1 : ¬(vfFragment.content.length < MIN_PATTERN_LENGTH) := by decide
  have h2 : ¬(50 < vfFragment.lineCount) := by decide
  have h3 : ¬(vfFragment.complexity < 1) := by
    rw [show vfFragment.complexity = (5 / 2 : ℚ) from vf_complexity]
    norm_num
  have hworth1 : isWorthLearning [] vfFragment = true := by
    rw [isWorthLearning, if_neg h1, if_neg h2, if_neg h3]
    rfl
  have hst1 : processFragments [] [vfFragment] "javascript" 0 = [vfPattern] := by
    rw [processFragments, List.foldl_cons, List.foldl_nil, if_pos hworth1]
    rfl
  have hworth2 : isWorthLearning [vfPattern] vfFragment = false := by
    rw [isWorthLearning, if_neg h1, if_neg h2, if_neg h3, vf_findSimilar]
    show (if (9 / 10 : ℚ) < vfPattern.confianca then false else true) = false
    rw [if_pos (show (9 / 10 : ℚ) < vfPattern.confianca by
      rw [show vfPattern.confianca = (1 : ℚ) from vf_confidence]
      norm_num)]
  rw [hst1, processFragments, List.foldl_cons, List.foldl_nil, hworth2]
  rw [if_neg (by simp)]

/-- Claim C1 (amended): a `learn` call on a fragment whose id is already
stored strictly increments that pattern's frequency by one; but the full
pipeline (worth-learning filter followed by learn) applied twice to the
`validateEmail` fragment leaves the store with exactly one pattern whose
frequency is 1, not 2 — the second pass never reaches `learn`. -/
theorem c1_learn_reinforcement (patterns : List LearnedPattern) (fragment : CodeFragment)
    (languageId : String) (now : Nat) (p : LearnedPattern)
    (hp : findPattern patterns (generatePatternId fragment.content) = some p) :
    (∃ p', findPattern (learnFromFragment patterns fragment languageId now)
        (generatePatternId fragment.content) = some p' ∧
      p'.frequencia = p.frequencia + 1) ∧
      (processFragments (processFragments [] [vfFragment] "javascript" 0) [vfFragment]
          "javascript" 1).map (fun q => q.frequencia) = [1] := by
  refine ⟨⟨reinforceUpdate fragment now p, findPattern_learn_reinforce _ _ _ _ _ hp, rfl⟩, ?_⟩
  rw [vf_pipeline_eval]
  rfl

/-- Counterexample for C1: after the pipeline processes the
`validateEmail` fragment twice, the store holds exactly one pattern and its
frequency is 1 — not 2 as the claim requires. -/
theorem c1_pipeline_counterexample :
    (processFragments (processFragments [] [vfFragment] "javascript" 0) [vfFragment]
        "javascript" 1).map (fun q => q.frequencia) = [1] ∧
      (processFragments (processFragments [] [vfFragment] "javascript" 0) [vfFragment]
          "javascript" 1).map (fun q => q.frequencia) ≠ [2] := by
  rw [vf_pipeline_eval]
  exact ⟨rfl, by decide⟩

/-- Witness for C1: reinforcement of a concrete one-pattern store. -/
theorem c1_reinforcement_witness :
    (∃ p', findPattern (learnFromFragment [c8Pattern] c8Fragment "javascript" 42)
        (generatePatternId c8Fragment.content) = some p' ∧
      p'.frequencia = c8Pattern.frequencia + 1) ∧
      (processFragments (processFragments [] [vfFragment] "javascript" 0) [vfFragment]
          "javascript" 1).map (fun q => q.frequencia) = [1] :=
  c1_learn_reinforcement [c8Pattern] c8Fragment "javascript" 42 c8Pattern rfl

/-! ### Claim C5: structural similarity of `validateEmail` and
`validatePhone` -/

def veBody : ENode :=
  .blockStatement [.returnStatement (some (.callExpression
    (.memberExpression (.identifier "emailRegex") (.identifier "test")) [.identifier "email"]))]

def vpBody : ENode :=
  .blockStatement [.returnStatement (some (.callExpression
    (.memberExpression (.identifier "phoneRegex") (.identifier "test")) [.identifier "phone"]))]

def validateEmailNode : ENode :=
  .functionDeclaration (some (.identifier "validateEmail")) [.identifier "email"] veBody

def validatePhoneNode : ENode :=
  .functionDeclaration (some (.identifier "validatePhone")) [.identifier "phone"] vpBody

set_option maxHeartbeats 4000000 in
/-- Claim C5: the two distinct one-parameter function declarations
`validateEmail` and `validatePhone`, whose bodies are each a single return
of a regex `test` call, score structural similarity strictly above 0.5
(base 0.3, parameter-count and parameter-type bonuses 0.2, the shared
`test` keyword 0.05, equal `if`-counts in the serialized bodies 0.05, and a
non-negative edit-distance residual). -/
theorem c5_structural_similarity :
    (1 / 2 : ℚ) < calculateSimilarity validateEmailNode validatePhoneNode ∧
      validateEmailNode ≠ validatePhoneNode := by
  constructor
  · have hL : (0 : ℚ) <
        ((max (jsonStringify veBody).length (jsonStringify vpBody).length : ℕ) : ℚ) := by
      have h : (max (jsonStringify veBody).length (jsonStringify vpBody).length : ℕ) = 301 := by
        decide
      rw [h]
      norm_num
    have hdle :
        ((levenshteinDistance (jsonStringify veBody).data (jsonStringify vpBody).data : ℕ) : ℚ) /
          ((max (jsonStringify veBody).length (jsonStringify vpBody).length : ℕ) : ℚ) ≤ 1 := by
      rw [div_le_one hL]
      have h := levenshteinDistance_le (jsonStringify veBody).data (jsonStringify vpBody).data
      exact_mod_cast h
    have hd0 : (0 : ℚ) ≤
        ((levenshteinDistance (jsonStringify veBody).data (jsonStringify vpBody).data : ℕ) : ℚ) /
          ((max (jsonStringify veBody).length (jsonStringify vpBody).length : ℕ) : ℚ) :=
      div_nonneg (Nat.cast_nonneg _) (Nat.cast_nonneg _)
    have hsf : similarityFunction [ENode.identifier "email"] veBody
          [ENode.identifier "phone"] vpBody =
        3 / 10 + 1 / 10 + 1 / 10 * (((1 : ℕ) : ℚ) / ((1 : ℕ) : ℚ)) +
          min (1 / 5) (0 + 1 / 20) + min (1 / 5) (0 + 1 / 20) +
          1 / 10 *
            (1 -
              ((levenshteinDistance (jsonStringify veBody).data (jsonStringify vpBody).data : ℕ) :
                    ℚ) /
                ((max (jsonStringify veBody).length (jsonStringify vpBody).length : ℕ) : ℚ)) :=
      rfl
    rw [calculateSimilarity.eq_def]
    rw [if_neg (show ¬(typeOf validateEmailNode ≠ typeOf validatePhoneNode) from by decide)]
    show (1 / 2 : ℚ) < clamp01 (similarityFunction [ENode.identifier "email"] veBody
      [ENode.identifier "phone"] vpBody)
    rw [hsf, clamp01]
    refine lt_of_lt_of_le ?_ (le_max_right _ _)
    refine lt_min (by norm_num) ?_
    rw [min_eq_right (show (0 + 1 / 20 : ℚ) ≤ 1 / 5 by norm_num)]
    rw [Nat.cast_one, div_one]
    linarith [hdle, hd0]
  · intro h
    rw [validateEmailNode, validatePhoneNode] at h
    injection h with h1 h2 h3
    injection h1 with h4
    injection h4 with h5
    exact absurd h5 (by decide)

end SimpleAI
